import Mathlib

/-!
Shallow embedding of the geography-game backend (src/db/db_utils.py and
src/db/app.py): the users/game_scores tables, the connection pool, the
persistence-gateway operations, the JWT session tokens, and the two
HTTP endpoints POST /api/auth/google and GET /api/users.

Timestamps are modelled as natural numbers (seconds); each request carries
a single current time `now` standing for the wall clock during that request.
Database-level failures are modelled by a per-call environment `DBEnv`:
whether the connection pool object exists (`poolExists`) and whether the SQL
execution raises an unexpected exception (`queryRaises`).  The pool itself is
the count of currently available connections.
-/

namespace GeoGame

/-- A row of the `public.users` table.  `name` and `profile_picture_url`
come from optional Google claims, so they are nullable. -/
structure UserRow where
  id : Nat
  google_id : String
  email : String
  name : Option String
  profile_picture_url : Option String
  created_at : Nat
  last_login : Nat
  is_admin : Bool
deriving DecidableEq

/-- A row of the `public.game_scores` table (the INSERT in `add_game_score`
sets exactly `user_id`, `game_mode`, `score`; `id` is the surrogate key). -/
structure ScoreRow where
  id : Nat
  user_id : Nat
  game_mode : String
  score : Int
deriving DecidableEq

/-- The database state: both tables plus the sequences generating ids. -/
structure DBState where
  users : List UserRow
  scores : List ScoreRow
  nextUserId : Nat
  nextScoreId : Nat
deriving DecidableEq

/-- Failure oracle for one gateway call: does the module-level
`connection_pool` object exist, and does executing the SQL raise an
unexpected exception (`psycopg2.Error` other than the modelled FK case). -/
structure DBEnv where
  poolExists : Bool
  queryRaises : Bool
deriving DecidableEq

/-- `get_db_connection`: returns a connection from the pool, or `None` when
the pool object is missing or `getconn` fails (pool exhausted).  The pool is
the number of free connections. -/
def get_db_connection (env : DBEnv) (pool : Nat) : Option Unit × Nat :=
  if env.poolExists then
    match pool with
    | 0 => (none, 0)
    | n + 1 => (some (), n)
  else (none, pool)

/-- `release_db_connection`: puts the connection back into the pool. -/
def release_db_connection (pool : Nat) : Nat := pool + 1

/-- The DO UPDATE clause of the upsert: on a `google_id` conflict it SETs
exactly `email`, `name`, `profile_picture_url`, `last_login = NOW()` on the
conflicting row and leaves every other column and row alone. -/
def updRow (g e : String) (nm pic : Option String) (now : Nat)
    (r : UserRow) : UserRow :=
  if r.google_id == g then
    { r with email := e, name := nm, profile_picture_url := pic,
             last_login := now }
  else r

/-- The VALUES row of the upsert's INSERT branch: fresh id, the given
claims, `last_login = NOW()`, `is_admin = FALSE`, `created_at` set by the
table default to the insert time. -/
def newRow (g e : String) (nm pic : Option String) (now : Nat)
    (nextId : Nat) : UserRow :=
  { id := nextId, google_id := g, email := e, name := nm,
    profile_picture_url := pic, created_at := now, last_login := now,
    is_admin := false }

/-- The INSERT ... ON CONFLICT (google_id) DO UPDATE statement of
`add_or_update_user`.  Returns (RETURNING id, new users table, new id
sequence). -/
def upsertUsers (g e : String) (nm pic : Option String) (now : Nat)
    (users : List UserRow) (nextId : Nat) : Nat × List UserRow × Nat :=
  match users.find? (fun u => u.google_id == g) with
  | some u => (u.id, users.map (updRow g e nm pic now), nextId)
  | none => (nextId, users ++ [newRow g e nm pic now nextId], nextId + 1)

/-- `add_or_update_user(google_id, email, name, profile_picture_url)`:
acquires a pooled connection (returning `None` with no state change when that
fails), executes the upsert, commits, and releases the connection in the
`finally` block; on an exception it rolls back, releases, returns `None`. -/
def add_or_update_user (env : DBEnv) (g e : String) (nm pic : Option String)
    (now : Nat) (st : DBState) (pool : Nat) : Option Nat × DBState × Nat :=
  match get_db_connection env pool with
  | (none, pool1) => (none, st, pool1)
  | (some _, pool1) =>
      if env.queryRaises then
        (none, st, release_db_connection pool1)
      else
        let r := upsertUsers g e nm pic now st.users st.nextUserId
        (some r.1, { st with users := r.2.1, nextUserId := r.2.2 },
         release_db_connection pool1)

/-- `get_user_by_id(user_id)`: SELECT ... WHERE id = %s; returns the row or
`None` when not found, on connection failure, or on an exception. -/
def get_user_by_id (env : DBEnv) (uid : Nat) (st : DBState) (pool : Nat) :
    Option UserRow × Nat :=
  match get_db_connection env pool with
  | (none, pool1) => (none, pool1)
  | (some _, pool1) =>
      if env.queryRaises then (none, release_db_connection pool1)
      else (st.users.find? (fun u => u.id == uid), release_db_connection pool1)

/-- `get_user_by_google_id(google_id)`: SELECT ... WHERE google_id = %s. -/
def get_user_by_google_id (env : DBEnv) (g : String) (st : DBState)
    (pool : Nat) : Option UserRow × Nat :=
  match get_db_connection env pool with
  | (none, pool1) => (none, pool1)
  | (some _, pool1) =>
      if env.queryRaises then (none, release_db_connection pool1)
      else (st.users.find? (fun u => u.google_id == g),
            release_db_connection pool1)

/-- The ORDER BY last_login DESC relation used by `get_all_users`. -/
def lastLoginGE (a b : UserRow) : Prop := b.last_login ≤ a.last_login

instance : DecidableRel lastLoginGE := fun a b =>
  inferInstanceAs (Decidable (b.last_login ≤ a.last_login))

instance : IsTotal UserRow lastLoginGE :=
  ⟨fun a b => Nat.le_total b.last_login a.last_login⟩

instance : IsTrans UserRow lastLoginGE :=
  ⟨fun _ _ _ hab hbc => Nat.le_trans hbc hab⟩

/-- `get_all_users()`: SELECT ... ORDER BY last_login DESC.  Mirrors the
Python control flow exactly: `users_list` starts as `None`; when no
connection is obtained nothing is assigned and the final
`return users_list if users_list is not None else []` yields the empty list
`some []`; an exception during the query hits `return None` in the `except`
block (the `finally` block still releases the connection). -/
def get_all_users (env : DBEnv) (st : DBState) (pool : Nat) :
    Option (List UserRow) × Nat :=
  match get_db_connection env pool with
  | (none, pool1) => (some [], pool1)
  | (some _, pool1) =>
      if env.queryRaises then (none, release_db_connection pool1)
      else (some (List.insertionSort lastLoginGE st.users),
            release_db_connection pool1)

/-- `add_game_score(user_id, game_mode, score)`: INSERT INTO game_scores.
The database raises `ForeignKeyViolation` when `user_id` references no user
row; the function catches it, rolls back, releases the connection and
returns `None`. -/
def add_game_score (env : DBEnv) (uid : Nat) (mode : String) (score : Int)
    (st : DBState) (pool : Nat) : Option Nat × DBState × Nat :=
  match get_db_connection env pool with
  | (none, pool1) => (none, st, pool1)
  | (some _, pool1) =>
      if env.queryRaises then (none, st, release_db_connection pool1)
      else if st.users.any (fun u => u.id == uid) then
        (some st.nextScoreId,
         { st with
             scores := st.scores ++
               [{ id := st.nextScoreId, user_id := uid, game_mode := mode,
                  score := score }],
             nextScoreId := st.nextScoreId + 1 },
         release_db_connection pool1)
      else
        (none, st, release_db_connection pool1)

/-- One login call's arguments together with its failure oracle, used to
iterate `add_or_update_user` for the N-logins invariant. -/
structure LoginCall where
  env : DBEnv
  email : String
  name : Option String
  picture : Option String
  now : Nat
deriving DecidableEq

/-- Runs a sequence of logins for the same `google_id`, threading the
database state and the pool through `add_or_update_user`. -/
def runLogins (g : String) : List LoginCall → DBState → Nat → DBState × Nat
  | [], st, pool => (st, pool)
  | c :: rest, st, pool =>
      match add_or_update_user c.env g c.email c.name c.picture c.now st pool with
      | (_, st1, pool1) => runLogins g rest st1 pool1

/-- The claims of the JWT minted by `auth_google`. -/
structure JwtPayload where
  user_id : Nat
  email : String
  is_admin : Bool
  exp : Nat
  iat : Nat
deriving DecidableEq

/-- A string presented as a token: either an arbitrary non-JWT string
(`raw`), or a well-formed JWT whose HS256 signature was produced with `key`.
An HS256 MAC means a token decodes under a secret exactly when it was
encoded with that same secret. -/
inductive TokStr where
  | raw (s : String)
  | jwt (payload : JwtPayload) (key : String)
deriving DecidableEq

/-- `jwt.encode(payload, key, algorithm="HS256")`. -/
def jwt_encode (p : JwtPayload) (key : String) : TokStr := .jwt p key

/-- Outcome of `jwt.decode`: decoded claims, `ExpiredSignatureError`, or
`InvalidTokenError` (bad signature or malformed token). -/
inductive DecodeResult where
  | ok (p : JwtPayload)
  | expired
  | invalid
deriving DecidableEq

/-- `jwt.decode(token, key, algorithms=["HS256"])` at current time `now`:
signature check first, then the `exp` claim (expired when `exp` is in the
past). -/
def jwt_decode (t : TokStr) (key : String) (now : Nat) : DecodeResult :=
  match t with
  | .raw _ => .invalid
  | .jwt p k =>
      if k == key then
        if p.exp < now then .expired else .ok p
      else .invalid

/-- Python's `str.lower()` on the ASCII header scheme, character by
character. -/
def lowerStr (s : String) : String := ⟨s.data.map Char.toLower⟩

/-- The `parts[0].lower() == "bearer"` scheme check on a split header part.
A JWT blob (base64 of JSON) never reads "bearer". -/
def isBearer : TokStr → Bool
  | .raw s => lowerStr s == "bearer"
  | .jwt _ _ => false

/-- A GET /api/users request: the Authorization header, already split on
whitespace (`auth_header.split()`), or `none` when the header is absent. -/
structure UsersRequest where
  authHeader : Option (List TokStr)
deriving DecidableEq

/-- Response of GET /api/users, by the JSON body shapes the code returns. -/
inductive UsersResponse where
  | unauthorized (msg : String)
  | forbidden
  | serverError
  | userList (l : List UserRow)
deriving DecidableEq

/-- HTTP status of a GET /api/users response. -/
def UsersResponse.status : UsersResponse → Nat
  | .unauthorized _ => 401
  | .forbidden => 403
  | .serverError => 500
  | .userList _ => 200

/-- GET /api/users: the `token_required` decorator (header parsing, JWT
verification, `get_user_by_id` lookup stored in `g.current_user`) followed by
the `get_users` handler (admin check, `get_all_users`).  Returns the
response together with the resulting pool. -/
def get_users_endpoint (secret : String) (now : Nat) (env : DBEnv)
    (st : DBState) (pool : Nat) (req : UsersRequest) : UsersResponse × Nat :=
  match req.authHeader with
  | none => (.unauthorized "Token is missing!", pool)
  | some parts =>
    match parts with
    | [scheme, tok] =>
      if isBearer scheme then
        match jwt_decode tok secret now with
        | .invalid => (.unauthorized "Token is invalid!", pool)
        | .expired => (.unauthorized "Token has expired!", pool)
        | .ok p =>
          match get_user_by_id env p.user_id st pool with
          | (none, pool1) => (.unauthorized "User not found", pool1)
          | (some u, pool1) =>
            if u.is_admin then
              match get_all_users env st pool1 with
              | (none, pool2) => (.serverError, pool2)
              | (some l, pool2) => (.userList l, pool2)
            else (.forbidden, pool1)
      else (.unauthorized "Malformed token header", pool)
    | _ => (.unauthorized "Malformed token header", pool)

/-- The verified Google ID-token claims: `sub` is always present, `email`,
`name`, `picture` are fetched with `.get` and may be absent. -/
structure GoogleClaims where
  sub : String
  email : Option String
  name : Option String
  picture : Option String
deriving DecidableEq

/-- Outcome of `id_token.verify_oauth2_token`: verified claims, or the
`ValueError` raised on an invalid Google token. -/
inductive GoogleVerify where
  | ok (claims : GoogleClaims)
  | verifyError
deriving DecidableEq

/-- A POST /api/auth/google request: whether the body is JSON and the
`token` field of the body (`data.get("token")`); Python treats the empty
string as missing (`if not token`). -/
structure AuthRequest where
  isJson : Bool
  token : Option String
deriving DecidableEq

/-- Response of POST /api/auth/google, by the JSON bodies the code returns.
`success` carries the `user` object fields and the `access_token`. -/
inductive AuthResponse where
  | notJson
  | missingToken
  | emailNotFound
  | invalidGoogleToken
  | dbFailure
  | fetchFailure
  | success (id : Nat) (google_id email : String) (name picture : Option String)
      (is_admin : Bool) (access_token : TokStr)
deriving DecidableEq

/-- HTTP status of a POST /api/auth/google response. -/
def AuthResponse.status : AuthResponse → Nat
  | .notJson => 415
  | .missingToken => 400
  | .emailNotFound => 400
  | .invalidGoogleToken => 401
  | .dbFailure => 500
  | .fetchFailure => 500
  | .success _ _ _ _ _ _ _ => 200

/-- The `user.id` field of a successful login response. -/
def AuthResponse.userId? : AuthResponse → Option Nat
  | .success i _ _ _ _ _ _ => some i
  | _ => none

/-- The `access_token` field of a successful login response. -/
def AuthResponse.accessToken? : AuthResponse → Option TokStr
  | .success _ _ _ _ _ _ t => some t
  | _ => none

/-- The persistence-gateway operations, for tracing which are invoked. -/
inductive GatewayOp where
  | upsert
  | getById
deriving DecidableEq

/-- Result of one POST /api/auth/google request: response, resulting
database state and pool, and the trace of gateway operations invoked. -/
structure AuthResult where
  resp : AuthResponse
  st : DBState
  pool : Nat
  trace : List GatewayOp
deriving DecidableEq

/-- POST /api/auth/google: JSON check, token presence check (`if not
token`), Google verification, missing-email check, `add_or_update_user`,
re-read via `get_user_by_id`, then JWT minting with
`exp = now + 1 hour`, `iat = now`. -/
def auth_google (verify : GoogleVerify) (secret : String) (now : Nat)
    (env : DBEnv) (st : DBState) (pool : Nat) (req : AuthRequest) :
    AuthResult :=
  if !req.isJson then ⟨.notJson, st, pool, []⟩
  else if req.token.getD "" == "" then ⟨.missingToken, st, pool, []⟩
  else
    match verify with
    | .verifyError => ⟨.invalidGoogleToken, st, pool, []⟩
    | .ok claims =>
      match claims.email with
      | none => ⟨.emailNotFound, st, pool, []⟩
      | some email =>
        match add_or_update_user env claims.sub email claims.name
            claims.picture now st pool with
        | (none, st1, pool1) => ⟨.dbFailure, st1, pool1, [.upsert]⟩
        | (some uid, st1, pool1) =>
          match get_user_by_id env uid st1 pool1 with
          | (none, pool2) => ⟨.fetchFailure, st1, pool2, [.upsert, .getById]⟩
          | (some u, pool2) =>
            let payload : JwtPayload :=
              { user_id := uid, email := u.email, is_admin := u.is_admin,
                exp := now + 3600, iat := now }
            ⟨.success u.id u.google_id u.email u.name u.profile_picture_url
               u.is_admin (jwt_encode payload secret),
             st1, pool2, [.upsert, .getById]⟩

/-- Looks up the user row for a `google_id`, as the upsert's conflict
target does. -/
def findByGid (users : List UserRow) (g : String) : Option UserRow :=
  users.find? (fun u => u.google_id == g)

/-- A request carrying a well-formed `Authorization: Bearer <token>`
header. -/
def bearerReq (t : TokStr) : UsersRequest :=
  ⟨some [.raw "Bearer", t]⟩

/-! ## Helper lemmas -/

theorem updRow_id (g e : String) (nm pic : Option String) (now : Nat)
    (r : UserRow) : (updRow g e nm pic now r).id = r.id := by
  unfold updRow; split <;> rfl

theorem updRow_google_id (g e : String) (nm pic : Option String) (now : Nat)
    (r : UserRow) : (updRow g e nm pic now r).google_id = r.google_id := by
  unfold updRow; split <;> rfl

theorem updRow_created_at (g e : String) (nm pic : Option String) (now : Nat)
    (r : UserRow) : (updRow g e nm pic now r).created_at = r.created_at := by
  unfold updRow; split <;> rfl

theorem updRow_is_admin (g e : String) (nm pic : Option String) (now : Nat)
    (r : UserRow) : (updRow g e nm pic now r).is_admin = r.is_admin := by
  unfold updRow; split <;> rfl

theorem findByGid_map_updRow (g e : String) (nm pic : Option String)
    (now : Nat) (users : List UserRow) :
    findByGid (users.map (updRow g e nm pic now)) g
      = (findByGid users g).map (updRow g e nm pic now) := by
  unfold findByGid
  rw [List.find?_map]
  have hp : ((fun u : UserRow => u.google_id == g) ∘ updRow g e nm pic now)
      = fun u : UserRow => u.google_id == g := by
    funext r
    simp [Function.comp, updRow_google_id]
  rw [hp]

theorem findByGid_append_new (g e : String) (nm pic : Option String)
    (now nid : Nat) (users : List UserRow)
    (h : findByGid users g = none) :
    findByGid (users ++ [newRow g e nm pic now nid] : List UserRow) g
      = some (newRow g e nm pic now nid) := by
  unfold findByGid at h ⊢
  rw [List.find?_append, h]
  simp [newRow]

theorem get_db_connection_success (env : DBEnv) (k : Nat)
    (hpe : env.poolExists = true) :
    get_db_connection env (k + 1) = (some (), k) := by
  simp [get_db_connection, hpe]

theorem add_or_update_user_success (env : DBEnv) (g e : String)
    (nm pic : Option String) (now : Nat) (st : DBState) (k : Nat)
    (hpe : env.poolExists = true) (hqr : env.queryRaises = false) :
    add_or_update_user env g e nm pic now st (k + 1) =
      (some (upsertUsers g e nm pic now st.users st.nextUserId).1,
       { st with
           users := (upsertUsers g e nm pic now st.users st.nextUserId).2.1,
           nextUserId := (upsertUsers g e nm pic now st.users st.nextUserId).2.2 },
       k + 1) := by
  simp [add_or_update_user, get_db_connection, hpe, hqr,
    release_db_connection]

theorem get_user_by_id_success (env : DBEnv) (uid : Nat) (st : DBState)
    (k : Nat) (hpe : env.poolExists = true) (hqr : env.queryRaises = false) :
    get_user_by_id env uid st (k + 1)
      = (st.users.find? (fun u => u.id == uid), k + 1) := by
  simp [get_user_by_id, get_db_connection, hpe, hqr, release_db_connection]

theorem get_all_users_success (env : DBEnv) (st : DBState) (k : Nat)
    (hpe : env.poolExists = true) (hqr : env.queryRaises = false) :
    get_all_users env st (k + 1)
      = (some (List.insertionSort lastLoginGE st.users), k + 1) := by
  simp [get_all_users, get_db_connection, hpe, hqr, release_db_connection]

theorem findByGid_upsert_found (g e : String) (nm pic : Option String)
    (now nid : Nat) (users : List UserRow) (u : UserRow)
    (h : findByGid users g = some u) :
    upsertUsers g e nm pic now users nid
      = (u.id, users.map (updRow g e nm pic now), nid) := by
  have hfind : users.find? (fun r => r.google_id == g) = some u := h
  unfold upsertUsers
  rw [hfind]

theorem findByGid_upsert_none (g e : String) (nm pic : Option String)
    (now nid : Nat) (users : List UserRow)
    (h : findByGid users g = none) :
    upsertUsers g e nm pic now users nid
      = (nid, users ++ [newRow g e nm pic now nid], nid + 1) := by
  have hfind : users.find? (fun r => r.google_id == g) = none := h
  unfold upsertUsers
  rw [hfind]

/-- After an upsert returning id `uid`, looking the table up by id `uid`
finds a row, and that row's id is `uid` (the re-read in the login flow
succeeds and agrees with the returned id). -/
theorem find_id_in_upsert (g e : String) (nm pic : Option String)
    (now nid : Nat) (users : List UserRow) (uid : Nat)
    (users1 : List UserRow) (next1 : Nat)
    (h : upsertUsers g e nm pic now users nid = (uid, users1, next1)) :
    ∃ u2, users1.find? (fun r => r.id == uid) = some u2 ∧ u2.id = uid := by
  rcases hf : findByGid users g with _ | u
  · rw [findByGid_upsert_none g e nm pic now nid users hf] at h
    injection h with h1 hrest
    injection hrest with h2 h3
    subst h1; subst h2
    rcases hg : users.find? (fun r => r.id == nid) with _ | y
    · refine ⟨newRow g e nm pic now nid, ?_, rfl⟩
      rw [List.find?_append, hg]
      simp [newRow]
    · refine ⟨y, ?_, ?_⟩
      · rw [List.find?_append, hg]; rfl
      · have hp := List.find?_some hg
        simpa using hp
  · rw [findByGid_upsert_found g e nm pic now nid users u hf] at h
    injection h with h1 hrest
    injection hrest with h2 h3
    subst h1; subst h2
    have hcomp : ((fun r : UserRow => r.id == u.id) ∘ updRow g e nm pic now)
        = fun r : UserRow => r.id == u.id := by
      funext r
      simp [Function.comp, updRow_id]
    rcases hg : users.find? (fun r : UserRow => r.id == u.id) with _ | y
    · exfalso
      rw [List.find?_eq_none] at hg
      exact hg u (List.mem_of_find?_eq_some hf) (by simp)
    · refine ⟨updRow g e nm pic now y, ?_, ?_⟩
      · rw [List.find?_map, hcomp, hg]; rfl
      · rw [updRow_id]
        have hp := List.find?_some hg
        simpa using hp

/-- The database state after a login call is either unchanged (connection
failure or rollback) or the committed upsert result. -/
theorem add_or_update_user_state (env : DBEnv) (g e : String)
    (nm pic : Option String) (now : Nat) (st : DBState) (pool : Nat) :
    (add_or_update_user env g e nm pic now st pool).2.1 = st ∨
    (add_or_update_user env g e nm pic now st pool).2.1
      = { st with
            users := (upsertUsers g e nm pic now st.users st.nextUserId).2.1,
            nextUserId :=
              (upsertUsers g e nm pic now st.users st.nextUserId).2.2 } := by
  rcases env with ⟨pe, qr⟩
  cases pe <;> cases qr <;> cases pool <;>
    simp [add_or_update_user, get_db_connection, release_db_connection]

/-- One login call — whatever its outcome — keeps the is_admin flag and id
of an existing row for the same google_id. -/
theorem findByGid_after_login (env : DBEnv) (g e : String)
    (nm pic : Option String) (now : Nat) (st : DBState) (pool : Nat)
    (u : UserRow) (h : findByGid st.users g = some u) :
    ∃ u2, findByGid
        (add_or_update_user env g e nm pic now st pool).2.1.users g
          = some u2
      ∧ u2.is_admin = u.is_admin ∧ u2.id = u.id := by
  rcases add_or_update_user_state env g e nm pic now st pool with hst | hst
  · exact ⟨u, by rw [hst]; exact h, rfl, rfl⟩
  · refine ⟨updRow g e nm pic now u, ?_, updRow_is_admin g e nm pic now u,
      updRow_id g e nm pic now u⟩
    rw [hst]
    show findByGid (upsertUsers g e nm pic now st.users st.nextUserId).2.1 g
      = _
    rw [findByGid_upsert_found g e nm pic now st.nextUserId st.users u h]
    show findByGid (st.users.map (updRow g e nm pic now)) g = _
    rw [findByGid_map_updRow, h]
    rfl

/-- Iterated logins for the same google_id keep the is_admin flag and id of
an existing row, whatever each call's outcome. -/
theorem runLogins_preserves (g : String) (calls : List LoginCall) :
    ∀ (st : DBState) (pool : Nat) (u : UserRow),
      findByGid st.users g = some u →
      ∃ u2, findByGid (runLogins g calls st pool).1.users g = some u2 ∧
        u2.is_admin = u.is_admin ∧ u2.id = u.id := by
  induction calls with
  | nil => exact fun st pool u h => ⟨u, h, rfl, rfl⟩
  | cons c rest ih =>
      intro st pool u h
      obtain ⟨u1, h1, ha1, hi1⟩ :=
        findByGid_after_login c.env g c.email c.name c.picture c.now st pool
          u h
      rcases hA : add_or_update_user c.env g c.email c.name c.picture c.now
          st pool with ⟨o, st1, pool1⟩
      rw [hA] at h1
      obtain ⟨u2, h2, ha2, hi2⟩ := ih st1 pool1 u1 h1
      refine ⟨u2, ?_, ha2.trans ha1, hi2.trans hi1⟩
      show findByGid (runLogins g (c :: rest) st pool).1.users g = some u2
      unfold runLogins
      rw [hA]
      exact h2

/-! ## Claim theorems -/

/-- C1: the login upsert never changes a row's is_admin or id: for a row
present after a first login, is_admin and id after any further sequence of
logins for the same google_id equal their values after that first login; and
a successful conflict-path login leaves the table length and, on every row,
id, google_id, created_at and is_admin untouched (only email, name,
profile_picture_url, last_login may change). -/
theorem upsert_preserves_is_admin_and_id (g : String) :
    (∀ (calls : List LoginCall) (st : DBState) (pool : Nat) (u1 : UserRow),
      findByGid st.users g = some u1 →
      ∃ u2, findByGid (runLogins g calls st pool).1.users g = some u2 ∧
        u2.is_admin = u1.is_admin ∧ u2.id = u1.id) ∧
    (∀ (env : DBEnv) (e : String) (nm pic : Option String) (now : Nat)
        (st : DBState) (k : Nat) (u : UserRow),
      env.poolExists = true → env.queryRaises = false →
      findByGid st.users g = some u →
      (add_or_update_user env g e nm pic now st (k + 1)).2.1.users.length
          = st.users.length ∧
      ∀ i (hi : i < st.users.length) (hi2 : i <
          (add_or_update_user env g e nm pic now st
            (k + 1)).2.1.users.length),
        (((add_or_update_user env g e nm pic now st
            (k + 1)).2.1.users.get ⟨i, hi2⟩).id
            = (st.users.get ⟨i, hi⟩).id) ∧
        (((add_or_update_user env g e nm pic now st
            (k + 1)).2.1.users.get ⟨i, hi2⟩).google_id
            = (st.users.get ⟨i, hi⟩).google_id) ∧
        (((add_or_update_user env g e nm pic now st
            (k + 1)).2.1.users.get ⟨i, hi2⟩).created_at
            = (st.users.get ⟨i, hi⟩).created_at) ∧
        (((add_or_update_user env g e nm pic now st
            (k + 1)).2.1.users.get ⟨i, hi2⟩).is_admin
            = (st.users.get ⟨i, hi⟩).is_admin)) := by
  constructor
  · exact fun calls st pool u1 h => runLogins_preserves g calls st pool u1 h
  · intro env e nm pic now st k u hpe hqr h
    have husers : (add_or_update_user env g e nm pic now st
        (k + 1)).2.1.users = st.users.map (updRow g e nm pic now) := by
      rw [add_or_update_user_success env g e nm pic now st k hpe hqr]
      show (upsertUsers g e nm pic now st.users st.nextUserId).2.1 = _
      rw [findByGid_upsert_found g e nm pic now st.nextUserId st.users u h]
    constructor
    · rw [husers, List.length_map]
    · intro i hi hi2
      refine ⟨?_, ?_, ?_, ?_⟩ <;>
        simp [husers, List.get_eq_getElem, List.getElem_map, updRow_id,
          updRow_google_id, updRow_created_at, updRow_is_admin]

/-- C1 witness: a pre-existing admin row for g1 keeps is_admin = true and
id = 1 across two further logins (the second of which even fails), and a
single successful conflict login keeps table length 1. -/
theorem upsert_preserves_is_admin_and_id_witness :
    (∃ u2, findByGid (runLogins "g1"
        [⟨⟨true, false⟩, "new@x.com", some "N", none, 50⟩,
         ⟨⟨false, false⟩, "other@x.com", none, none, 60⟩]
        ⟨[⟨1, "g1", "a@x.com", none, none, 0, 5, true⟩], [], 2, 1⟩
        1).1.users "g1" = some u2 ∧
      u2.is_admin = true ∧ u2.id = 1) ∧
    (add_or_update_user ⟨true, false⟩ "g1" "new@x.com" (some "N") none 50
        ⟨[⟨1, "g1", "a@x.com", none, none, 0, 5, true⟩], [], 2, 1⟩
        (0 + 1)).2.1.users.length
      = 1 :=
  ⟨(upsert_preserves_is_admin_and_id "g1").1
      [⟨⟨true, false⟩, "new@x.com", some "N", none, 50⟩,
       ⟨⟨false, false⟩, "other@x.com", none, none, 60⟩]
      ⟨[⟨1, "g1", "a@x.com", none, none, 0, 5, true⟩], [], 2, 1⟩ 1
      ⟨1, "g1", "a@x.com", none, none, 0, 5, true⟩ (by decide),
   ((upsert_preserves_is_admin_and_id "g1").2 ⟨true, false⟩ "new@x.com"
      (some "N") none 50
      ⟨[⟨1, "g1", "a@x.com", none, none, 0, 5, true⟩], [], 2, 1⟩ 0
      ⟨1, "g1", "a@x.com", none, none, 0, 5, true⟩ rfl rfl (by decide)).1⟩

/-- C7: every persistence-gateway operation restores the pool of available
connections on every exit path — connection-acquisition failure, business
error, exception, or success. -/
theorem connection_pool_restored (env : DBEnv) (g e mode : String)
    (nm pic : Option String) (now uid : Nat) (score : Int)
    (st : DBState) (pool : Nat) :
    (add_or_update_user env g e nm pic now st pool).2.2 = pool ∧
    (get_user_by_id env uid st pool).2 = pool ∧
    (get_user_by_google_id env g st pool).2 = pool ∧
    (get_all_users env st pool).2 = pool ∧
    (add_game_score env uid mode score st pool).2.2 = pool := by
  rcases env with ⟨pe, qr⟩
  cases pe <;> cases qr <;> cases pool <;>
    simp [add_or_update_user, get_user_by_id, get_user_by_google_id,
      get_all_users, add_game_score, get_db_connection,
      release_db_connection, apply_ite]

/-- C5: adding a score for a user_id that references no user row takes the
ForeignKeyViolation path: no score id is returned, nothing crashes, and the
game_scores table is unchanged (rolled back before the release). -/
theorem add_game_score_nonexistent_user (env : DBEnv) (mode : String)
    (score : Int) (st : DBState) (pool uid : Nat)
    (h : ∀ u ∈ st.users, u.id ≠ uid) :
    (add_game_score env uid mode score st pool).1 = none ∧
    (add_game_score env uid mode score st pool).2.1.scores = st.scores := by
  have hany : st.users.any (fun u => u.id == uid) = false := by
    simp only [List.any_eq_false]
    intro u hu
    simp only [beq_iff_eq]
    exact h u hu
  rcases env with ⟨pe, qr⟩
  cases pe <;> cases qr <;> cases pool <;>
    simp [add_game_score, get_db_connection, release_db_connection, hany]

/-- C5 witness: scoring for the repository's own test id 999999 on an empty
users table fails without touching the scores table. -/
theorem add_game_score_nonexistent_user_witness :
    (add_game_score ⟨true, false⟩ 999999 "flag_match" 500
        ⟨[], [], 1, 1⟩ 2).1 = none ∧
    (add_game_score ⟨true, false⟩ 999999 "flag_match" 500
        ⟨[], [], 1, 1⟩ 2).2.1.scores = ([] : List ScoreRow) :=
  add_game_score_nonexistent_user ⟨true, false⟩ "flag_match" 500
    ⟨[], [], 1, 1⟩ 2 999999 (by simp)

/-- C8: any list value returned by get_all_users is ordered by last_login
descending: every adjacent pair is non-increasing in last_login. -/
theorem get_all_users_sorted_desc (env : DBEnv) (st : DBState) (pool : Nat)
    (l : List UserRow) (h : (get_all_users env st pool).1 = some l) :
    l.Chain' (fun a b => b.last_login ≤ a.last_login) := by
  rcases env with ⟨pe, qr⟩
  cases pe <;> cases qr <;> cases pool <;>
    simp [get_all_users, get_db_connection, release_db_connection] at h <;>
    subst h <;>
    first
    | exact List.chain'_nil
    | exact (List.sorted_insertionSort lastLoginGE st.users).chain'

/-- C8 witness: on a two-user table the returned order is newest
last_login first. -/
theorem get_all_users_sorted_desc_witness :
    List.Chain' (fun a b : UserRow => b.last_login ≤ a.last_login)
      [⟨2, "g2", "b@x.com", none, none, 0, 9, true⟩,
       ⟨1, "g1", "a@x.com", none, none, 0, 5, false⟩] :=
  get_all_users_sorted_desc ⟨true, false⟩
    ⟨[⟨1, "g1", "a@x.com", none, none, 0, 5, false⟩,
      ⟨2, "g2", "b@x.com", none, none, 0, 9, true⟩], [], 3, 1⟩ 1
    [⟨2, "g2", "b@x.com", none, none, 0, 9, true⟩,
     ⟨1, "g1", "a@x.com", none, none, 0, 5, false⟩] (by decide)

/-- C4: when no database connection can be obtained (pool missing or
exhausted), get_all_users returns the empty list — indistinguishable from an
empty table — rather than the distinguished error value none, even though
the users table here is non-empty. -/
theorem get_all_users_no_connection_returns_empty_list :
    (get_all_users ⟨false, false⟩
        ⟨[⟨1, "g1", "a@x.com", none, none, 0, 0, false⟩], [], 2, 1⟩ 3).1
      = some [] ∧
    (get_all_users ⟨false, false⟩
        ⟨[⟨1, "g1", "a@x.com", none, none, 0, 0, false⟩], [], 2, 1⟩ 3).1
      ≠ none := by
  refine ⟨rfl, ?_⟩
  simp [get_all_users, get_db_connection]

/-- C9: a session token with a valid signature that is not expired but whose
user_id matches no user row is rejected 401 "User not found" by the access
guard, never reaching the handler. -/
theorem valid_token_unknown_user_401 (secret : String) (now : Nat)
    (env : DBEnv) (st : DBState) (pool : Nat) (p : JwtPayload)
    (hexp : ¬ p.exp < now)
    (habs : ∀ u ∈ st.users, u.id ≠ p.user_id) :
    (get_users_endpoint secret now env st pool
        (bearerReq (.jwt p secret))).1 = .unauthorized "User not found" := by
  have hfind : st.users.find? (fun u => u.id == p.user_id) = none := by
    rw [List.find?_eq_none]
    intro u hu
    simp only [beq_iff_eq]
    exact habs u hu
  have hb : isBearer (.raw "Bearer") = true := by decide
  rcases env with ⟨pe, qr⟩
  cases pe <;> cases qr <;> cases pool <;>
    simp [get_users_endpoint, bearerReq, hb, jwt_decode, hexp,
      get_user_by_id, get_db_connection, release_db_connection, hfind]

/-- C9 witness: an unexpired, correctly signed token for the unknown user
id 7 on an empty table is answered 401 User not found. -/
theorem valid_token_unknown_user_401_witness :
    (get_users_endpoint "s" 10 ⟨true, false⟩ ⟨[], [], 1, 1⟩ 1
        (bearerReq (.jwt ⟨7, "a@x.com", false, 20, 10⟩ "s"))).1
      = .unauthorized "User not found" :=
  valid_token_unknown_user_401 "s" 10 ⟨true, false⟩ ⟨[], [], 1, 1⟩ 1
    ⟨7, "a@x.com", false, 20, 10⟩ (by decide) (by simp)

/-- C10: a Google token that verifies but carries no email claim is answered
400 with no persistence-gateway call: the trace is empty and the database
state is unchanged. -/
theorem auth_google_no_email_400 (claims : GoogleClaims) (secret : String)
    (now : Nat) (env : DBEnv) (st : DBState) (pool : Nat) (req : AuthRequest)
    (hj : req.isJson = true) (ht : req.token.getD "" ≠ "")
    (he : claims.email = none) :
    (auth_google (.ok claims) secret now env st pool req).resp
        = .emailNotFound ∧
    ((auth_google (.ok claims) secret now env st pool req).resp).status
        = 400 ∧
    (auth_google (.ok claims) secret now env st pool req).st = st ∧
    (auth_google (.ok claims) secret now env st pool req).trace = [] := by
  simp [auth_google, hj, ht, he, AuthResponse.status]

/-- C2: the login flow is idempotent on identity: two POST /api/auth/google
calls with the same verified claims return the same user.id, the second call
creates no second row, and is_admin is unchanged by either call. -/
theorem login_flow_idempotent (claims : GoogleClaims) (e secret : String)
    (now1 now2 : Nat) (env : DBEnv) (st : DBState) (pool : Nat)
    (req1 req2 : AuthRequest)
    (he : claims.email = some e)
    (hpe : env.poolExists = true) (hqr : env.queryRaises = false)
    (hpool : 0 < pool)
    (hj1 : req1.isJson = true) (ht1 : req1.token.getD "" ≠ "")
    (hj2 : req2.isJson = true) (ht2 : req2.token.getD "" ≠ "") :
    ∃ uid,
      (auth_google (.ok claims) secret now1 env st pool req1).resp.userId?
          = some uid ∧
      (auth_google (.ok claims) secret now2 env
          (auth_google (.ok claims) secret now1 env st pool req1).st
          (auth_google (.ok claims) secret now1 env st pool req1).pool
          req2).resp.userId? = some uid ∧
      (auth_google (.ok claims) secret now2 env
          (auth_google (.ok claims) secret now1 env st pool req1).st
          (auth_google (.ok claims) secret now1 env st pool req1).pool
          req2).st.users.length
        = (auth_google (.ok claims) secret now1 env st pool
            req1).st.users.length ∧
      (findByGid (auth_google (.ok claims) secret now2 env
          (auth_google (.ok claims) secret now1 env st pool req1).st
          (auth_google (.ok claims) secret now1 env st pool req1).pool
          req2).st.users claims.sub).map UserRow.is_admin
        = (findByGid (auth_google (.ok claims) secret now1 env st pool
            req1).st.users claims.sub).map UserRow.is_admin ∧
      (∀ u0, findByGid st.users claims.sub = some u0 →
        (findByGid (auth_google (.ok claims) secret now1 env st pool
            req1).st.users claims.sub).map UserRow.is_admin
          = some u0.is_admin) := by
  obtain ⟨k, rfl⟩ : ∃ k, pool = k + 1 := ⟨pool - 1, by omega⟩
  obtain ⟨su, ss, sn, sc⟩ := st
  rcases hU1 : upsertUsers claims.sub e claims.name claims.picture now1 su sn
    with ⟨uid1, users1, next1⟩
  have hA1 : add_or_update_user env claims.sub e claims.name claims.picture
      now1 ⟨su, ss, sn, sc⟩ (k + 1)
      = (some uid1, ⟨users1, ss, next1, sc⟩, k + 1) := by
    simp [add_or_update_user, get_db_connection, hpe, hqr,
      release_db_connection, hU1]
  obtain ⟨w1, hw1, hw1id⟩ := find_id_in_upsert claims.sub e claims.name
    claims.picture now1 sn su uid1 users1 next1 hU1
  have hG1 : get_user_by_id env uid1 ⟨users1, ss, next1, sc⟩ (k + 1)
      = (some w1, k + 1) := by
    simp [get_user_by_id, get_db_connection, hpe, hqr,
      release_db_connection, hw1]
  have hR1 : auth_google (.ok claims) secret now1 env ⟨su, ss, sn, sc⟩
      (k + 1) req1
      = ⟨.success w1.id w1.google_id w1.email w1.name w1.profile_picture_url
           w1.is_admin
           (jwt_encode ⟨uid1, w1.email, w1.is_admin, now1 + 3600, now1⟩
             secret),
         ⟨users1, ss, next1, sc⟩, k + 1, [.upsert, .getById]⟩ := by
    simp [auth_google, hj1, ht1, he, hA1, hG1]
  rcases hU2 : upsertUsers claims.sub e claims.name claims.picture now2
    users1 next1 with ⟨uid2, users2, next2⟩
  have hA2 : add_or_update_user env claims.sub e claims.name claims.picture
      now2 ⟨users1, ss, next1, sc⟩ (k + 1)
      = (some uid2, ⟨users2, ss, next2, sc⟩, k + 1) := by
    simp [add_or_update_user, get_db_connection, hpe, hqr,
      release_db_connection, hU2]
  obtain ⟨w2, hw2, hw2id⟩ := find_id_in_upsert claims.sub e claims.name
    claims.picture now2 next1 users1 uid2 users2 next2 hU2
  have hG2 : get_user_by_id env uid2 ⟨users2, ss, next2, sc⟩ (k + 1)
      = (some w2, k + 1) := by
    simp [get_user_by_id, get_db_connection, hpe, hqr,
      release_db_connection, hw2]
  have hR2 : auth_google (.ok claims) secret now2 env ⟨users1, ss, next1, sc⟩
      (k + 1) req2
      = ⟨.success w2.id w2.google_id w2.email w2.name w2.profile_picture_url
           w2.is_admin
           (jwt_encode ⟨uid2, w2.email, w2.is_admin, now2 + 3600, now2⟩
             secret),
         ⟨users2, ss, next2, sc⟩, k + 1, [.upsert, .getById]⟩ := by
    simp [auth_google, hj2, ht2, he, hA2, hG2]
  have hstep1 : ∃ v1, findByGid users1 claims.sub = some v1 ∧
      v1.id = uid1 ∧
      (∀ u0, findByGid su claims.sub = some u0 →
        v1.is_admin = u0.is_admin) := by
    rcases hf : findByGid su claims.sub with _ | u
    · rw [findByGid_upsert_none claims.sub e claims.name claims.picture now1
        sn su hf] at hU1
      injection hU1 with h1 hrest
      injection hrest with h2 h3
      subst h1; subst h2
      refine ⟨newRow claims.sub e claims.name claims.picture now1 sn,
        findByGid_append_new claims.sub e claims.name claims.picture now1 sn
          su hf, rfl, ?_⟩
      intro u0 h0
      exact Option.noConfusion h0
    · rw [findByGid_upsert_found claims.sub e claims.name claims.picture now1
        sn su u hf] at hU1
      injection hU1 with h1 hrest
      injection hrest with h2 h3
      subst h1; subst h2
      refine ⟨updRow claims.sub e claims.name claims.picture now1 u, ?_,
        updRow_id claims.sub e claims.name claims.picture now1 u, ?_⟩
      · rw [findByGid_map_updRow, hf]
        rfl
      · intro u0 h0
        injection h0 with h0
        subst h0
        exact updRow_is_admin claims.sub e claims.name claims.picture now1 u
  obtain ⟨v1, hfind1, hv1id, hadm1⟩ := hstep1
  rw [findByGid_upsert_found claims.sub e claims.name claims.picture now2
    next1 users1 v1 hfind1] at hU2
  injection hU2 with h1 hrest
  injection hrest with h2 h3
  subst h1; subst h2
  have hfind2 : findByGid
      (users1.map (updRow claims.sub e claims.name claims.picture now2))
      claims.sub
      = some (updRow claims.sub e claims.name claims.picture now2 v1) := by
    rw [findByGid_map_updRow, hfind1]
    rfl
  refine ⟨uid1, ?_, ?_, ?_, ?_, ?_⟩
  · rw [hR1]
    show some w1.id = some uid1
    rw [hw1id]
  · rw [hR1]
    show (auth_google (.ok claims) secret now2 env ⟨users1, ss, next1, sc⟩
        (k + 1) req2).resp.userId? = some uid1
    rw [hR2]
    show some w2.id = some uid1
    rw [hw2id, hv1id]
  · rw [hR1]
    show (auth_google (.ok claims) secret now2 env ⟨users1, ss, next1, sc⟩
        (k + 1) req2).st.users.length = users1.length
    rw [hR2]
    show (users1.map
        (updRow claims.sub e claims.name claims.picture now2)).length
      = users1.length
    exact List.length_map users1 _
  · rw [hR1]
    show (findByGid (auth_google (.ok claims) secret now2 env
        ⟨users1, ss, next1, sc⟩ (k + 1) req2).st.users claims.sub).map
        UserRow.is_admin
      = (findByGid users1 claims.sub).map UserRow.is_admin
    rw [hR2]
    show (findByGid (users1.map
        (updRow claims.sub e claims.name claims.picture now2))
        claims.sub).map UserRow.is_admin
      = (findByGid users1 claims.sub).map UserRow.is_admin
    rw [hfind2, hfind1]
    show some (updRow claims.sub e claims.name claims.picture now2
        v1).is_admin = some v1.is_admin
    rw [updRow_is_admin]
  · intro u0 h0
    rw [hR1]
    show (findByGid users1 claims.sub).map UserRow.is_admin
      = some u0.is_admin
    rw [hfind1]
    show some v1.is_admin = some u0.is_admin
    rw [hadm1 u0 h0]

/-- C2 witness: two logins for google_id g1 on an initially empty table
return the same user id, leave one row, and keep is_admin identical. -/
theorem login_flow_idempotent_witness :
    ∃ uid,
      (auth_google (.ok ⟨"g1", some "a@x.com", some "A", none⟩) "s" 10
          ⟨true, false⟩ ⟨[], [], 1, 1⟩ 1 ⟨true, some "t"⟩).resp.userId?
          = some uid ∧
      (auth_google (.ok ⟨"g1", some "a@x.com", some "A", none⟩) "s" 20
          ⟨true, false⟩
          (auth_google (.ok ⟨"g1", some "a@x.com", some "A", none⟩) "s" 10
            ⟨true, false⟩ ⟨[], [], 1, 1⟩ 1 ⟨true, some "t"⟩).st
          (auth_google (.ok ⟨"g1", some "a@x.com", some "A", none⟩) "s" 10
            ⟨true, false⟩ ⟨[], [], 1, 1⟩ 1 ⟨true, some "t"⟩).pool
          ⟨true, some "t"⟩).resp.userId? = some uid ∧
      (auth_google (.ok ⟨"g1", some "a@x.com", some "A", none⟩) "s" 20
          ⟨true, false⟩
          (auth_google (.ok ⟨"g1", some "a@x.com", some "A", none⟩) "s" 10
            ⟨true, false⟩ ⟨[], [], 1, 1⟩ 1 ⟨true, some "t"⟩).st
          (auth_google (.ok ⟨"g1", some "a@x.com", some "A", none⟩) "s" 10
            ⟨true, false⟩ ⟨[], [], 1, 1⟩ 1 ⟨true, some "t"⟩).pool
          ⟨true, some "t"⟩).st.users.length
        = (auth_google (.ok ⟨"g1", some "a@x.com", some "A", none⟩) "s" 10
            ⟨true, false⟩ ⟨[], [], 1, 1⟩ 1
            ⟨true, some "t"⟩).st.users.length ∧
      (findByGid (auth_google (.ok ⟨"g1", some "a@x.com", some "A", none⟩)
          "s" 20 ⟨true, false⟩
          (auth_google (.ok ⟨"g1", some "a@x.com", some "A", none⟩) "s" 10
            ⟨true, false⟩ ⟨[], [], 1, 1⟩ 1 ⟨true, some "t"⟩).st
          (auth_google (.ok ⟨"g1", some "a@x.com", some "A", none⟩) "s" 10
            ⟨true, false⟩ ⟨[], [], 1, 1⟩ 1 ⟨true, some "t"⟩).pool
          ⟨true, some "t"⟩).st.users "g1").map UserRow.is_admin
        = (findByGid (auth_google
            (.ok ⟨"g1", some "a@x.com", some "A", none⟩) "s" 10
            ⟨true, false⟩ ⟨[], [], 1, 1⟩ 1
            ⟨true, some "t"⟩).st.users "g1").map UserRow.is_admin ∧
      (∀ u0, findByGid (DBState.users ⟨[], [], 1, 1⟩) "g1" = some u0 →
        (findByGid (auth_google
            (.ok ⟨"g1", some "a@x.com", some "A", none⟩) "s" 10
            ⟨true, false⟩ ⟨[], [], 1, 1⟩ 1
            ⟨true, some "t"⟩).st.users "g1").map UserRow.is_admin
          = some u0.is_admin) :=
  login_flow_idempotent ⟨"g1", some "a@x.com", some "A", none⟩ "a@x.com"
    "s" 10 20 ⟨true, false⟩ ⟨[], [], 1, 1⟩ 1 ⟨true, some "t"⟩
    ⟨true, some "t"⟩ rfl rfl rfl (by decide) rfl (by decide) rfl (by decide)

/-- C6: every session token minted by the login flow embeds user_id, email,
is_admin, an issued-at time, and an expiry exactly the issued-at time plus
one hour (3600 s); presenting that token to the protected route strictly
after the expiry time is rejected 401 as expired. -/
theorem session_token_claims_and_expiry (claims : GoogleClaims)
    (e secret : String) (now : Nat) (env : DBEnv) (st : DBState)
    (pool : Nat) (req : AuthRequest)
    (he : claims.email = some e) (hpe : env.poolExists = true)
    (hqr : env.queryRaises = false) (hpool : 0 < pool)
    (hj : req.isJson = true) (ht : req.token.getD "" ≠ "") :
    ∃ p : JwtPayload,
      (auth_google (.ok claims) secret now env st pool req).resp.accessToken?
          = some (jwt_encode p secret) ∧
      p.iat = now ∧
      p.exp = p.iat + 3600 ∧
      (∀ i gid em nm pic adm t,
        (auth_google (.ok claims) secret now env st pool req).resp
            = .success i gid em nm pic adm t →
        p.user_id = i ∧ p.email = em ∧ p.is_admin = adm) ∧
      (∀ (now2 : Nat) (env2 : DBEnv) (st2 : DBState) (pool2 : Nat),
        p.exp < now2 →
        (get_users_endpoint secret now2 env2 st2 pool2
            (bearerReq (.jwt p secret))).1
          = .unauthorized "Token has expired!") := by
  obtain ⟨k, rfl⟩ : ∃ k, pool = k + 1 := ⟨pool - 1, by omega⟩
  obtain ⟨su, ss, sn, sc⟩ := st
  rcases hU1 : upsertUsers claims.sub e claims.name claims.picture now su sn
    with ⟨uid1, users1, next1⟩
  have hA1 : add_or_update_user env claims.sub e claims.name claims.picture
      now ⟨su, ss, sn, sc⟩ (k + 1)
      = (some uid1, ⟨users1, ss, next1, sc⟩, k + 1) := by
    simp [add_or_update_user, get_db_connection, hpe, hqr,
      release_db_connection, hU1]
  obtain ⟨w1, hw1, hw1id⟩ := find_id_in_upsert claims.sub e claims.name
    claims.picture now sn su uid1 users1 next1 hU1
  have hG1 : get_user_by_id env uid1 ⟨users1, ss, next1, sc⟩ (k + 1)
      = (some w1, k + 1) := by
    simp [get_user_by_id, get_db_connection, hpe, hqr,
      release_db_connection, hw1]
  have hR1 : auth_google (.ok claims) secret now env ⟨su, ss, sn, sc⟩
      (k + 1) req
      = ⟨.success w1.id w1.google_id w1.email w1.name w1.profile_picture_url
           w1.is_admin
           (jwt_encode ⟨uid1, w1.email, w1.is_admin, now + 3600, now⟩
             secret),
         ⟨users1, ss, next1, sc⟩, k + 1, [.upsert, .getById]⟩ := by
    simp [auth_google, hj, ht, he, hA1, hG1]
  refine ⟨⟨uid1, w1.email, w1.is_admin, now + 3600, now⟩, ?_, rfl, rfl,
    ?_, ?_⟩
  · rw [hR1]
    rfl
  · intro i gid em nm pic adm t hsucc
    rw [hR1] at hsucc
    have hsucc2 : AuthResponse.success w1.id w1.google_id w1.email w1.name
        w1.profile_picture_url w1.is_admin
        (jwt_encode ⟨uid1, w1.email, w1.is_admin, now + 3600, now⟩ secret)
        = .success i gid em nm pic adm t := hsucc
    injection hsucc2 with hi hgid hem hnm hpic hadm htok
    refine ⟨?_, hem, hadm⟩
    rw [← hw1id]
    exact hi
  · intro now2 env2 st2 pool2 hlt
    have hlt2 : now + 3600 < now2 := hlt
    have hb : isBearer (.raw "Bearer") = true := by decide
    simp [get_users_endpoint, bearerReq, hb, jwt_decode, hlt2]

/-- C6 witness: a login on an empty table at time 10 mints a token with
iat 10 and exp 3610, rejected as expired when presented later. -/
theorem session_token_claims_and_expiry_witness :
    ∃ p : JwtPayload,
      (auth_google (.ok ⟨"g1", some "a@x.com", some "A", none⟩) "s" 10
          ⟨true, false⟩ ⟨[], [], 1, 1⟩ 1
          ⟨true, some "t"⟩).resp.accessToken? = some (jwt_encode p "s") ∧
      p.iat = 10 ∧
      p.exp = p.iat + 3600 ∧
      (∀ i gid em nm pic adm t,
        (auth_google (.ok ⟨"g1", some "a@x.com", some "A", none⟩) "s" 10
            ⟨true, false⟩ ⟨[], [], 1, 1⟩ 1 ⟨true, some "t"⟩).resp
            = .success i gid em nm pic adm t →
        p.user_id = i ∧ p.email = em ∧ p.is_admin = adm) ∧
      (∀ (now2 : Nat) (env2 : DBEnv) (st2 : DBState) (pool2 : Nat),
        p.exp < now2 →
        (get_users_endpoint "s" now2 env2 st2 pool2
            (bearerReq (.jwt p "s"))).1
          = .unauthorized "Token has expired!") :=
  session_token_claims_and_expiry ⟨"g1", some "a@x.com", some "A", none⟩
    "a@x.com" "s" 10 ⟨true, false⟩ ⟨[], [], 1, 1⟩ 1 ⟨true, some "t"⟩
    rfl rfl rfl (by decide) rfl (by decide)

/-- C3: GET /api/users answers 401 for a missing, malformed, invalid or
expired session token; 403 for a valid unexpired token of a non-admin user;
200 with the user list for a valid unexpired admin token. -/
theorem get_users_endpoint_auth_matrix (secret : String) (now : Nat)
    (env : DBEnv) (st : DBState) (pool : Nat) :
    ((get_users_endpoint secret now env st pool ⟨none⟩).1.status = 401) ∧
    (∀ parts : List TokStr, parts.length ≠ 2 →
      (get_users_endpoint secret now env st pool ⟨some parts⟩).1.status
        = 401) ∧
    (∀ s t, isBearer s = false →
      (get_users_endpoint secret now env st pool ⟨some [s, t]⟩).1.status
        = 401) ∧
    (∀ s, (get_users_endpoint secret now env st pool
        (bearerReq (.raw s))).1.status = 401) ∧
    (∀ (p : JwtPayload) (k : String), k ≠ secret →
      (get_users_endpoint secret now env st pool
          (bearerReq (.jwt p k))).1.status = 401) ∧
    (∀ p : JwtPayload, p.exp < now →
      (get_users_endpoint secret now env st pool
          (bearerReq (.jwt p secret))).1.status = 401) ∧
    (∀ (p : JwtPayload) (u : UserRow), ¬ p.exp < now →
      env.poolExists = true → env.queryRaises = false → 0 < pool →
      st.users.find? (fun r => r.id == p.user_id) = some u →
      ((u.is_admin = false →
        (get_users_endpoint secret now env st pool
            (bearerReq (.jwt p secret))).1 = .forbidden ∧
        (get_users_endpoint secret now env st pool
            (bearerReq (.jwt p secret))).1.status = 403) ∧
       (u.is_admin = true →
        (get_users_endpoint secret now env st pool
            (bearerReq (.jwt p secret))).1
          = .userList (List.insertionSort lastLoginGE st.users) ∧
        (get_users_endpoint secret now env st pool
            (bearerReq (.jwt p secret))).1.status = 200))) := by
  have hb : isBearer (.raw "Bearer") = true := by decide
  refine ⟨rfl, ?_, ?_, ?_, ?_, ?_, ?_⟩
  · intro parts hlen
    rcases parts with _ | ⟨a, _ | ⟨b, _ | ⟨c, rest⟩⟩⟩
    · rfl
    · rfl
    · exact absurd rfl hlen
    · rfl
  · intro s t hs
    simp [get_users_endpoint, hs, UsersResponse.status]
  · intro s
    simp [get_users_endpoint, bearerReq, hb, jwt_decode,
      UsersResponse.status]
  · intro p k hk
    have hkf : (k == secret) = false := by simpa using hk
    simp [get_users_endpoint, bearerReq, hb, jwt_decode, hkf,
      UsersResponse.status]
  · intro p hexp
    simp [get_users_endpoint, bearerReq, hb, jwt_decode, hexp,
      UsersResponse.status]
  · intro p u hexp hpe hqr hpool hfind
    obtain ⟨k, rfl⟩ : ∃ k, pool = k + 1 := ⟨pool - 1, by omega⟩
    constructor
    · intro hadmin
      simp [get_users_endpoint, bearerReq, hb, jwt_decode, hexp,
        get_user_by_id_success, hpe, hqr, hfind, hadmin,
        UsersResponse.status]
    · intro hadmin
      simp [get_users_endpoint, bearerReq, hb, jwt_decode, hexp,
        get_user_by_id_success, hpe, hqr, hfind, hadmin,
        get_all_users_success, UsersResponse.status]

/-- C3 witness: on a table with a non-admin user 1 and an admin user 2, a
missing token is 401, the non-admin's valid token is 403, and the admin's
valid token returns the user list. -/
theorem get_users_endpoint_auth_matrix_witness :
    (get_users_endpoint "s" 10 ⟨true, false⟩
        ⟨[⟨1, "g1", "a@x.com", none, none, 0, 5, false⟩,
          ⟨2, "g2", "b@x.com", none, none, 0, 9, true⟩], [], 3, 1⟩ 1
        ⟨none⟩).1.status = 401 ∧
    (get_users_endpoint "s" 10 ⟨true, false⟩
        ⟨[⟨1, "g1", "a@x.com", none, none, 0, 5, false⟩,
          ⟨2, "g2", "b@x.com", none, none, 0, 9, true⟩], [], 3, 1⟩ 1
        (bearerReq (.jwt ⟨1, "a@x.com", false, 20, 10⟩ "s"))).1.status
      = 403 ∧
    (get_users_endpoint "s" 10 ⟨true, false⟩
        ⟨[⟨1, "g1", "a@x.com", none, none, 0, 5, false⟩,
          ⟨2, "g2", "b@x.com", none, none, 0, 9, true⟩], [], 3, 1⟩ 1
        (bearerReq (.jwt ⟨2, "b@x.com", true, 20, 10⟩ "s"))).1
      = .userList (List.insertionSort lastLoginGE
          [⟨1, "g1", "a@x.com", none, none, 0, 5, false⟩,
           ⟨2, "g2", "b@x.com", none, none, 0, 9, true⟩]) :=
  ⟨(get_users_endpoint_auth_matrix "s" 10 ⟨true, false⟩
      ⟨[⟨1, "g1", "a@x.com", none, none, 0, 5, false⟩,
        ⟨2, "g2", "b@x.com", none, none, 0, 9, true⟩], [], 3, 1⟩ 1).1,
   (((get_users_endpoint_auth_matrix "s" 10 ⟨true, false⟩
      ⟨[⟨1, "g1", "a@x.com", none, none, 0, 5, false⟩,
        ⟨2, "g2", "b@x.com", none, none, 0, 9, true⟩], [], 3, 1⟩
      1).2.2.2.2.2.2 ⟨1, "a@x.com", false, 20, 10⟩
      ⟨1, "g1", "a@x.com", none, none, 0, 5, false⟩ (by decide) rfl rfl
      (by decide) (by decide)).1 rfl).2,
   (((get_users_endpoint_auth_matrix "s" 10 ⟨true, false⟩
      ⟨[⟨1, "g1", "a@x.com", none, none, 0, 5, false⟩,
        ⟨2, "g2", "b@x.com", none, none, 0, 9, true⟩], [], 3, 1⟩
      1).2.2.2.2.2.2 ⟨2, "b@x.com", true, 20, 10⟩
      ⟨2, "g2", "b@x.com", none, none, 0, 9, true⟩ (by decide) rfl rfl
      (by decide) (by decide)).2 rfl).1⟩

/-- C10 witness: claims with sub g1 and no email yield the 400 response with
nothing written and no gateway call. -/
theorem auth_google_no_email_400_witness :
    (auth_google (.ok ⟨"g1", none, none, none⟩) "s" 10 ⟨true, false⟩
        ⟨[], [], 1, 1⟩ 1 ⟨true, some "tok"⟩).resp = .emailNotFound ∧
    ((auth_google (.ok ⟨"g1", none, none, none⟩) "s" 10 ⟨true, false⟩
        ⟨[], [], 1, 1⟩ 1 ⟨true, some "tok"⟩).resp).status = 400 ∧
    (auth_google (.ok ⟨"g1", none, none, none⟩) "s" 10 ⟨true, false⟩
        ⟨[], [], 1, 1⟩ 1 ⟨true, some "tok"⟩).st = ⟨[], [], 1, 1⟩ ∧
    (auth_google (.ok ⟨"g1", none, none, none⟩) "s" 10 ⟨true, false⟩
        ⟨[], [], 1, 1⟩ 1 ⟨true, some "tok"⟩).trace = [] :=
  auth_google_no_email_400 ⟨"g1", none, none, none⟩ "s" 10 ⟨true, false⟩
    ⟨[], [], 1, 1⟩ 1 ⟨true, some "tok"⟩ rfl (by decide) rfl

end GeoGame
